import Mathlib

/-!
Shallow embedding of `src/web_monitor.py` (class `WebMonitor`): target
classification, the protocol (requests) checker, the render (Selenium)
checker, the Teams card builders, and the run orchestration, together with
theorems settling the frozen claims about this program.

Strings are modelled character-wise (`String` in this Lean version is a
structure over `List Char`), matching Python string slicing, `lower()`,
`split('/')`, `endswith` and the `in` substring test on the ASCII data the
program manipulates.  Network and browser effects are modelled as explicit
world values: each request or navigation is a value of an `Except` type,
error constructors standing for the exception classes the Python code
catches.  Timestamps (`MonitorResult.timestamp`) are dropped: no claim
mentions them.
-/

namespace WebMonitor

/-! ## Character-level string helpers (Python semantics) -/

/-- Python `s[:n]` (character slicing). -/
def strTake (n : Nat) (s : String) : String := ⟨s.data.take n⟩

/-- Python `s.lower()` (ASCII case folding, as used by the program). -/
def strLower (s : String) : String := ⟨s.data.map Char.toLower⟩

/-- Python `len(s)` in characters. -/
def strLen (s : String) : Nat := s.data.length

/-- Substring test on character lists: `needle` occurs inside `hay`. -/
def subOccurs (needle : List Char) : List Char → Bool
  | [] => needle.isEmpty
  | c :: rest => needle.isPrefixOf (c :: rest) || subOccurs needle rest

/-- Python `needle in hay` for strings. -/
def strContains (hay needle : String) : Bool := subOccurs needle.data hay.data

/-- Python `s.endswith(suffix)`. -/
def strEndsWith (s suffix : String) : Bool := suffix.data.isSuffixOf s.data

/-- Python `s.startswith(p)`. -/
def strStartsWith (s p : String) : Bool := p.data.isPrefixOf s.data

/-- Python `s.split(c)` for a one-character separator: splits on every
occurrence, keeping empty segments. -/
def splitOnChar (c : Char) : List Char → List (List Char)
  | [] => [[]]
  | d :: rest =>
      if d = c then [] :: splitOnChar c rest
      else
        match splitOnChar c rest with
        | [] => [[d]]
        | g :: gs => (d :: g) :: gs

/-- Python `url.split('/')` as a list of strings. -/
def strSplitSlash (s : String) : List String :=
  (splitOnChar '/' s.data).map (fun l => ⟨l⟩)

/-- Python `sep.join(parts)`. -/
def strJoin (sep : String) (parts : List String) : String :=
  match parts with
  | [] => ""
  | p :: rest => rest.foldl (fun acc q => acc ++ sep ++ q) p

/-- Python `s.strip()` (trim surrounding whitespace). -/
def strStrip (s : String) : String :=
  ⟨(s.data.dropWhile Char.isWhitespace).reverse.dropWhile Char.isWhitespace |>.reverse⟩

/-! ## Data model -/

/-- `MonitorResult` from the source, without the timestamp field (no claim
concerns `observedAt`). -/
structure MonitorResult where
  url : String
  is_available : Bool
  message : String
deriving DecidableEq

/-- Timeout constant `TIMEOUT_SECONDS = 45` (pages / Selenium). -/
def TIMEOUT_SECONDS : Nat := 45

/-- Timeout constant `FILE_TIMEOUT = 15` (downloadable files / requests). -/
def FILE_TIMEOUT : Nat := 15

/-! ## Target Classifier (`check_url` dispatch) -/

/-- The fixed extension tuple from `check_url`. -/
def file_extensions : List String :=
  [".pdf", ".xlsx", ".xls", ".xlsm", ".zip", ".doc", ".docx"]

/-- The two target kinds the classifier distinguishes. -/
inductive TargetKind where
  | Document : TargetKind
  | Page : TargetKind
deriving DecidableEq

/-- Classification from `check_url`: Python
`url.lower().endswith(file_extensions)` — the test is on the whole URL
string, lowercased. -/
def classifyUrl (url : String) : TargetKind :=
  if file_extensions.any (fun ext => strEndsWith (strLower url) ext) then
    TargetKind.Document
  else TargetKind.Page

/-- `problematic_domains` from `_check_file_url`. -/
def problematic_domains : List String := ["igualdadenlaempresa.es"]

/-- The rendering requirement from `_check_file_url`: Python
`any(domain in url for domain in problematic_domains)` — a substring test
against the whole URL. -/
def requiresRendering (url : String) : Bool :=
  problematic_domains.any (fun d => strContains url d)

/-! ## Claim-side URL notions (spec wording, for comparison only)

The spec phrases classification in terms of the URL's *path* and the
anti-automation set in terms of the URL's *host*.  The following
definitions follow those words (scheme `://`, then host up to the first
`/`, then path up to `?` or `#`) so the claims can be stated as written
and compared with the code's behaviour. -/

/-- Drop everything up to and including the first occurrence of `needle`. -/
def dropAfterFirst (needle : List Char) : List Char → List Char
  | [] => []
  | c :: rest =>
      if needle.isPrefixOf (c :: rest) then (c :: rest).drop needle.length
      else dropAfterFirst needle rest

/-- Take characters until one of `stops` is met. -/
def takeUntilAny (stops : List Char) : List Char → List Char
  | [] => []
  | c :: rest => if stops.contains c then [] else c :: takeUntilAny stops rest

/-- The URL's host as the spec means it: the segment between `://` and the
next `/`. -/
def claimUrlHost (url : String) : String :=
  ⟨(dropAfterFirst "://".data url.data).takeWhile (fun c => ¬ c = '/')⟩

/-- The URL's path as the spec means it: after the host, up to `?` or `#`. -/
def claimUrlPath (url : String) : String :=
  ⟨takeUntilAny ['?', '#'] ((dropAfterFirst "://".data url.data).dropWhile (fun c => ¬ c = '/'))⟩

/-- Host match as the spec means it: the host equals a configured domain or
is a subdomain of one. -/
def claimHostMatches (url : String) : Bool :=
  problematic_domains.any (fun d =>
    claimUrlHost url = d || strEndsWith (claimUrlHost url) ("." ++ d))

/-! ## Transport and rendering worlds -/

/-- Exception classes caught around the `requests` calls in
`_check_file_url`: `Timeout`, `SSLError`, and other `RequestException`. -/
inductive ReqError where
  | timeout : ReqError
  | sslError : String → ReqError
  | requestError : String → ReqError
deriving DecidableEq

/-- Outcomes of the HEAD and the (potential) GET request for one target:
either an exception or a completed response with a status code. -/
structure HttpWorld where
  head : Except ReqError Nat
  get : Except ReqError Nat

/-- Exception classes caught around a Selenium navigation:
`TimeoutException`, `WebDriverException`, and any other `Exception`. -/
inductive NavError where
  | timeout : NavError
  | webDriverError : String → NavError
  | otherError : String → NavError
deriving DecidableEq

/-- What the driver observes when navigation succeeds: the rendered title
and the raw page source. -/
structure RenderedPage where
  title : String
  source : String
deriving DecidableEq

/-- Outcome of navigating the browser session to one URL. -/
abbrev RenderWorld := Except NavError RenderedPage

/-- A single-quote character as a string (used in the title message). -/
def sq : String := ⟨[Char.ofNat 39]⟩

/-! ## Protocol Checker: requests branch of `_check_file_url` -/

/-- The three `except` handlers of the requests branch of
`_check_file_url`, applying to an exception raised by either request. -/
def reqErrorResult (url : String) : ReqError → MonitorResult
  | ReqError.timeout =>
      ⟨url, false, "Timeout al acceder al archivo (>" ++ toString FILE_TIMEOUT ++ "s)"⟩
  | ReqError.sslError e => ⟨url, false, "Error SSL: " ++ strTake 80 e⟩
  | ReqError.requestError e => ⟨url, false, "Error de conexión: " ++ strTake 80 e⟩

/-- The requests branch of `_check_file_url`: HEAD first; on a completed
non-200 response fall back to GET.  The second component records whether
the GET request was issued. -/
def checkFileRequestsT (url : String) (w : HttpWorld) : MonitorResult × Bool :=
  match w.head with
  | Except.error e => (reqErrorResult url e, false)
  | Except.ok status =>
      if status = 200 then
        (⟨url, true, "Archivo disponible (HEAD: " ++ toString status ++ ")"⟩, false)
      else
        match w.get with
        | Except.error e => (reqErrorResult url e, true)
        | Except.ok s2 =>
            if s2 = 200 then
              (⟨url, true, "Archivo disponible (GET: " ++ toString s2 ++ ")"⟩, true)
            else (⟨url, false, "Error HTTP " ++ toString s2⟩, true)

/-- The `MonitorResult` of the requests branch of `_check_file_url`. -/
def checkFileRequests (url : String) (w : HttpWorld) : MonitorResult :=
  (checkFileRequestsT url w).1

/-! ## Render checks -/

/-- `error_indicators` from the Selenium branch of `_check_file_url`. -/
def error_indicators : List String := ["404", "not found", "no encontrado", "error"]

/-- The Selenium branch of `_check_file_url` (problematic domains):
navigate, then look for error indicators in the first 500 characters of
the lowercased page source. -/
def checkFileRender (url : String) (w : RenderWorld) : MonitorResult :=
  match w with
  | Except.ok page =>
      if error_indicators.any
          (fun ind => strContains (strTake 500 (strLower page.source)) ind) then
        ⟨url, false, "Archivo no disponible (error en página)"⟩
      else ⟨url, true, "Archivo disponible (verificado con navegador)"⟩
  | Except.error NavError.timeout =>
      ⟨url, false, "Timeout al acceder al archivo (>" ++ toString TIMEOUT_SECONDS ++ "s)"⟩
  | Except.error (NavError.webDriverError e) =>
      ⟨url, false, "Error al verificar archivo: " ++ strTake 80 e⟩
  | Except.error (NavError.otherError e) =>
      ⟨url, false, "Error al verificar archivo: " ++ strTake 80 e⟩

/-- `_check_file_url`: problematic domains go through the browser session,
all other documents through requests. -/
def checkFileUrl (url : String) (render : RenderWorld) (http : HttpWorld) : MonitorResult :=
  if requiresRendering url then checkFileRender url render
  else checkFileRequests url http

/-- `critical_errors` from `_check_web_url`. -/
def critical_errors : List String :=
  ["404 not found", "500 internal server error", "503 service unavailable",
   "page not found", "página no encontrada"]

/-- The critical-error scan of `_check_web_url`: any of the critical
phrases inside the first 1000 characters of the lowercased source. -/
def hasCriticalError (source : String) : Bool :=
  critical_errors.any (fun e => strContains (strTake 1000 (strLower source)) e)

/-- `_check_web_url`: navigate, look for critical errors in the first 1000
characters of the lowercased source, then fall back on title and page
length; exception handlers for timeout, WebDriver faults and unexpected
faults. -/
def checkWebUrl (url : String) (w : RenderWorld) : MonitorResult :=
  match w with
  | Except.ok page =>
      if hasCriticalError page.source then
        ⟨url, false, "Página con error crítico detectado"⟩
      else if page.title ≠ "" then
        ⟨url, true, "Web disponible - " ++ sq ++ strTake 50 page.title ++ sq⟩
      else if strLen (strLower page.source) > 100 then
        ⟨url, true, "Web disponible (sin título)"⟩
      else ⟨url, false, "Web sin contenido"⟩
  | Except.error NavError.timeout =>
      ⟨url, false, "Timeout al cargar página (>" ++ toString TIMEOUT_SECONDS ++ "s)"⟩
  | Except.error (NavError.webDriverError e) =>
      ⟨url, false, "Error de navegador: " ++ strTake 100 e⟩
  | Except.error (NavError.otherError e) =>
      ⟨url, false, "Error inesperado: " ++ strTake 100 e⟩

/-- `check_url`: dispatch on the classification. -/
def check_url (url : String) (render : RenderWorld) (http : HttpWorld) : MonitorResult :=
  match classifyUrl url with
  | TargetKind.Document => checkFileUrl url render http
  | TargetKind.Page => checkWebUrl url render

/-! ## Alert Card Builder (`_build_teams_card`, `_build_success_card`) -/

/-- One `{name, value}` fact of a MessageCard section. -/
structure Fact where
  name : String
  value : String
deriving DecidableEq

/-- The path truncation inside the failure-entry loop: Python
`if len(path) > 40: path = path[:37] + "..."`. -/
def truncFactValue (path : String) : String :=
  if strLen path > 40 then strTake 37 path ++ "..." else path

/-- The `try` body of the failure-entry loop: `domain = url.split('/')[2]`,
`path = '/' + '/'.join(url.split('/')[3:])[:40]` then truncation; the
`except` branch (fewer than three segments) yields a truncated raw URL and
an empty path. -/
def domainAndPath (url : String) : String × String :=
  let parts := strSplitSlash url
  if 2 < parts.length then
    (parts.getD 2 "",
     truncFactValue ("/" ++ strTake 40 (strJoin "/" (parts.drop 3))))
  else (strTake 50 url, "")

/-- One individual failure-entry fact, for the `i`-th (1-based) failed
result. -/
def failureEntryFact (i : Nat) (r : MonitorResult) : Fact :=
  ⟨"❌ " ++ toString i ++ ". " ++ (domainAndPath r.url).1,
   "📍 " ++ (domainAndPath r.url).2 ++ "\n💬 *" ++ r.message ++ "*"⟩

/-- The failure-entry loop of `_build_teams_card`:
`for i, result in enumerate(failed_urls[:10], 1)`. -/
def failureEntryFacts (failed : List MonitorResult) : List Fact :=
  (failed.take 10).enum.map (fun p => failureEntryFact (p.1 + 1) p.2)

/-- The five leading summary facts of the failure card. -/
def headerFacts (total success_count failed_count : Nat) (ts : String) : List Fact :=
  [⟨"📊 Total verificadas:", toString total⟩,
   ⟨"✅ Disponibles:", "**" ++ toString success_count ++ "** URLs"⟩,
   ⟨"❌ Con problemas:", "**" ++ toString failed_count ++ "** URLs"⟩,
   ⟨"⏰ Verificación:", ts⟩,
   ⟨"━━━━━━━━━━━━━━━━", "**URLs con Problemas:**"⟩]

/-- The overflow note: `if failed_count > 10: ...`. -/
def overflowFacts (failed_count : Nat) : List Fact :=
  if failed_count > 10 then
    [⟨"⚠️ Aviso:",
      "Hay " ++ toString (failed_count - 10) ++
      " URL(s) más con problemas. Consultar logs de GitHub Actions."⟩]
  else []

/-- Domain extraction in the working-URLs loop (`except` branch yields the
truncated raw URL). -/
def workingDomain (r : MonitorResult) : String :=
  let parts := strSplitSlash r.url
  if 2 < parts.length then parts.getD 2 "" else strTake 50 r.url

/-- The working-URLs batching loop: `i` is the 1-based loop index, `n` the
length of the truncated working list, `acc` the `urls_batch` accumulator
(reset when `i % 4 == 1`, flushed when `i % 4 == 0` or at the end). -/
def workingBatchLoop (n : Nat) : Nat → String → List MonitorResult → List Fact
  | _, _, [] => []
  | i, acc, r :: rest =>
      let acc2 := (if i % 4 = 1 then "" else acc) ++ "✅ " ++ workingDomain r ++ "   "
      if i % 4 = 0 ∨ i = n then
        ⟨" ", strStrip acc2⟩ :: workingBatchLoop n (i + 1) acc2 rest
      else workingBatchLoop n (i + 1) acc2 rest

/-- The working-URLs section of the failure card (`if success_count > 0`),
with its own overflow note when more than eight targets succeed. -/
def workingFacts (all_results : List MonitorResult) (success_count : Nat) : List Fact :=
  if success_count > 0 then
    let working := (all_results.filter (fun r => r.is_available)).take 8
    (⟨"━━━━━━━━━━━━━━━━", "**URLs Funcionando:**"⟩ ::
      workingBatchLoop working.length 1 "" working) ++
    (if success_count > 8 then
      [⟨" ", "*... y " ++ toString (success_count - 8) ++ " más funcionando correctamente*"⟩]
     else [])
  else []

/-- The full `facts` list of `_build_teams_card` (header, failure entries,
overflow note, working section), with the timestamp string passed in. -/
def buildTeamsCardFacts (failed_urls all_results : List MonitorResult) (ts : String) : List Fact :=
  headerFacts all_results.length (all_results.length - failed_urls.length)
      failed_urls.length ts ++
  failureEntryFacts failed_urls ++
  overflowFacts failed_urls.length ++
  workingFacts all_results (all_results.length - failed_urls.length)

/-! ## Failure-cause taxonomy (detail message classes) -/

/-- The failure-cause classes named by the spec taxonomy, restricted to
the classes produced by the cited handlers: transport timeout,
TLS/certificate failure, other transport failure, render timeout, render
fault, unexpected fault. -/
inductive FailureCause where
  | transportTimeout : FailureCause
  | tlsFailure : FailureCause
  | transportFailure : FailureCause
  | renderTimeout : FailureCause
  | renderFault : FailureCause
  | unexpectedFault : FailureCause
deriving DecidableEq

/-- The constant message head each cause class produces in `detail`. -/
def causeMark : FailureCause → String
  | FailureCause.transportTimeout => "Timeout al acceder al archivo"
  | FailureCause.tlsFailure => "Error SSL:"
  | FailureCause.transportFailure => "Error de conexión:"
  | FailureCause.renderTimeout => "Timeout al cargar página"
  | FailureCause.renderFault => "Error de navegador:"
  | FailureCause.unexpectedFault => "Error inesperado:"

/-- All cause classes, in a fixed order. -/
def allCauses : List FailureCause :=
  [FailureCause.transportTimeout, FailureCause.tlsFailure,
   FailureCause.transportFailure, FailureCause.renderTimeout,
   FailureCause.renderFault, FailureCause.unexpectedFault]

/-- Classify a detail message by its constant head alone (no parsing of
the free text beyond it). -/
def causeOf (detail : String) : Option FailureCause :=
  allCauses.find? (fun c => strStartsWith detail (causeMark c))

/-! ## Run Orchestrator (`run`, `_cleanup`)

`run` is a `try`/`except`/`finally` block.  We model it over an explicit
state (which driver exists, how many cleanup and quit attempts, how many
dispatches) with `Except`-style exception propagation, so the
once-per-run cleanup is a consequence of the control structure rather
than an assumption. -/

/-- The rendering session; its only observable aspect for the claims is
whether `quit()` raises. -/
structure Driver where
  quitFails : Bool
deriving DecidableEq

/-- Observable orchestration state. -/
structure OrchState where
  driver : Option Driver
  cleanupCalls : Nat
  quitAttempts : Nat
  dispatches : Nat
deriving DecidableEq

/-- A step of the orchestrator: may raise (left as `Except.error`) and
updates the state. -/
def OrchM (α : Type) : Type := OrchState → Except String α × OrchState

/-- Return without effect. -/
def orchPure {α : Type} (a : α) : OrchM α := fun s => (Except.ok a, s)

/-- Sequencing with exception propagation. -/
def orchBind {α β : Type} (x : OrchM α) (f : α → OrchM β) : OrchM β := fun s =>
  match x s with
  | (Except.ok a, s2) => f a s2
  | (Except.error e, s2) => (Except.error e, s2)

/-- Python `try: x except Exception: handler`. -/
def orchTryCatch {α : Type} (x : OrchM α) (handler : String → OrchM α) : OrchM α := fun s =>
  match x s with
  | (Except.ok a, s2) => (Except.ok a, s2)
  | (Except.error e, s2) => handler e s2

/-- Python `try: x finally: tail`: the tail runs on both outcomes; an
exception in the tail would replace the result. -/
def orchTryFinally {α : Type} (x : OrchM α) (tail : OrchM Unit) : OrchM α := fun s =>
  match x s with
  | (r, s2) =>
      match tail s2 with
      | (Except.ok _, s3) => (r, s3)
      | (Except.error e, s3) => (Except.error e, s3)

/-- The world one run observes: whether driver setup succeeds, whether
`quit()` raises, the target list with the transport/render worlds of each
target, plus fault switches for unexpected exceptions outside the
per-target boundary (in the checking loop, or escaping the notification
sender) and the delivery outcome. -/
structure OrchWorld where
  setupOk : Bool
  quitFails : Bool
  urls : List String
  render : String → RenderWorld
  http : String → HttpWorld
  checkingFault : Bool
  notifyFault : Bool
  notifyDelivered : Bool
  notify_always : Bool

/-- The outcomes the checking loop produces: one `check_url` per target
(the per-target checkers are total — all their exception classes are
absorbed into results). -/
def orchOutcomes (w : OrchWorld) : List MonitorResult :=
  w.urls.map (fun u => check_url u (w.render u) (w.http u))

/-- `self._driver = self._setup_driver()`. -/
def acquireDriver (w : OrchWorld) : OrchM Unit := fun s =>
  if w.setupOk then (Except.ok (), { s with driver := some ⟨w.quitFails⟩ })
  else (Except.error "setup failure", s)

/-- The checking loop over all targets; `checkingFault` injects an
unexpected exception outside the per-target boundary. -/
def checkingLoop (w : OrchWorld) : OrchM (List MonitorResult) := fun s =>
  if w.checkingFault then (Except.error "checking fault", s)
  else (Except.ok (orchOutcomes w), s)

/-- `send_teams_notification`: counts as a dispatch; returns whether the
sink accepted; `notifyFault` injects an exception not caught by the
sender's own handler. -/
def sendNotification (w : OrchWorld) : OrchM Bool := fun s =>
  let s2 := { s with dispatches := s.dispatches + 1 }
  if w.notifyFault then (Except.error "notification fault", s2)
  else (Except.ok w.notifyDelivered, s2)

/-- `driver.quit()`. -/
def quitDriver (d : Driver) : OrchM Unit := fun s =>
  let s2 := { s with quitAttempts := s.quitAttempts + 1 }
  if d.quitFails then (Except.error "quit failure", s2) else (Except.ok (), s2)

/-- `_cleanup`: no-op when no driver exists; otherwise `quit()` inside a
`try`/`except` that only logs. -/
def cleanupOp : OrchM Unit := fun s =>
  let s1 : OrchState := { s with cleanupCalls := s.cleanupCalls + 1 }
  match s1.driver with
  | none => (Except.ok (), s1)
  | some d => orchTryCatch (quitDriver d) (fun _ => orchPure ()) s1

/-- The `try` body of `run`: acquire, check all targets, branch on the
failed list, notify accordingly, return the exit code. -/
def runBody (w : OrchWorld) : OrchM Nat :=
  orchBind (acquireDriver w) (fun _ =>
    orchBind (checkingLoop w) (fun results =>
      if (results.filter (fun r => !r.is_available)).isEmpty then
        if w.notify_always then
          orchBind (sendNotification w) (fun _ => orchPure 0)
        else orchPure 0
      else orchBind (sendNotification w) (fun _ => orchPure 1)))

/-- `run`: the body inside `except Exception: return 1` inside
`finally: self._cleanup()`. -/
def runM (w : OrchWorld) : OrchM Nat :=
  orchTryFinally (orchTryCatch (runBody w) (fun _ => orchPure 1)) cleanupOp

/-- Initial state: no driver, no cleanup, no dispatches. -/
def initOrchState : OrchState := ⟨none, 0, 0, 0⟩

/-- One full run from the initial state. -/
def runExec (w : OrchWorld) : Except String Nat × OrchState := runM w initOrchState

/-- Claim-side notion: a notification is attempted in this run (failures
exist, or the success-notification policy is on). -/
def notificationHappens (w : OrchWorld) : Bool :=
  (orchOutcomes w).any (fun r => !r.is_available) || w.notify_always

/-- Claim-side notion of an orchestration-level fault: session acquisition
failure, or an unexpected exception outside the per-target boundary
(checking loop or notification phase). -/
def orchFault (w : OrchWorld) : Bool :=
  !w.setupOk || w.checkingFault || (w.notifyFault && notificationHappens w)

/-! ## Concrete run fixtures -/

/-- A concrete failing outcome, one per index. -/
def sampleFailure (k : Nat) : MonitorResult :=
  ⟨"https://broken" ++ toString k ++ ".example/p", false, "Error HTTP 404"⟩

/-- Twelve concrete failing outcomes (the scenario of the failure-card
overflow claim). -/
def sampleFailed12 : List MonitorResult := (List.range 12).map sampleFailure

/-! ## General lemmas on the string helpers -/

/-- String append acts as list append on the character data. -/
theorem strData_append (a b : String) : (a ++ b).data = a.data ++ b.data := rfl

/-- If the first `k` characters already disagree, `p` is not a prefix. -/
theorem isPrefixOf_eq_false_of_take_ne {p l : List Char} (k : Nat)
    (hk : k ≤ p.length) (h : p.take k ≠ l.take k) : p.isPrefixOf l = false := by
  rw [Bool.eq_false_iff]
  intro hpre
  rw [List.isPrefixOf_iff_prefix] at hpre
  obtain ⟨t, rfl⟩ := hpre
  exact h (List.take_append_of_le_length hk).symm

/-- A prefix of `a` is a prefix of `a ++ b`. -/
theorem isPrefixOf_append_of_isPrefixOf {p a b : List Char}
    (h : p.isPrefixOf a = true) : p.isPrefixOf (a ++ b) = true := by
  rw [List.isPrefixOf_iff_prefix] at h ⊢
  exact h.trans (List.prefix_append a b)

/-- Disagreement inside the constant head refutes `startsWith` whatever
the appended tail is. -/
theorem strStartsWith_append_eq_false {p a : String} (b : String) (k : Nat)
    (hk : k ≤ p.data.length) (hk2 : k ≤ a.data.length)
    (h : p.data.take k ≠ a.data.take k) :
    strStartsWith (a ++ b) p = false := by
  unfold strStartsWith
  rw [strData_append]
  exact isPrefixOf_eq_false_of_take_ne k hk
    (by rw [List.take_append_of_le_length hk2]; exact h)

/-- Agreement on the constant head establishes `startsWith` whatever the
appended tail is. -/
theorem strStartsWith_append_eq_true {p a : String} (b : String)
    (h : strStartsWith a p = true) : strStartsWith (a ++ b) p = true := by
  unfold strStartsWith at h ⊢
  rw [strData_append]
  exact isPrefixOf_append_of_isPrefixOf h

/-- An empty filter result means no element satisfies the predicate. -/
theorem filter_isEmpty_eq_not_any {α : Type} (p : α → Bool) (l : List α) :
    (l.filter p).isEmpty = !(l.any p) := by
  induction l with
  | nil => rfl
  | cons a t ih =>
      by_cases h : p a = true
      · simp [List.filter_cons, h]
      · rw [Bool.not_eq_true] at h
        simp [List.filter_cons, h, ih]

/-! ## C10: truncation -/

/-- C10: the card builder's fact-value truncation is idempotent, and no
truncated value exceeds the 40-character budget. -/
theorem truncFactValue_idempotent_and_bounded (s : String) :
    truncFactValue (truncFactValue s) = truncFactValue s ∧
    strLen (truncFactValue s) ≤ 40 := by
  unfold truncFactValue strLen strTake
  by_cases h : 40 < s.data.length
  · have hlen : ((⟨s.data.take 37⟩ : String) ++ "...").data.length = 40 := by
      rw [strData_append, List.length_append, List.length_take]
      have h37 : min 37 s.data.length = 37 :=
        Nat.min_eq_left (Nat.le_of_lt (Nat.lt_of_le_of_lt (by decide) h))
      rw [h37]
      rfl
    have hc : ¬ 40 < ((⟨s.data.take 37⟩ : String) ++ "...").data.length := by
      rw [hlen]; decide
    rw [if_pos h]
    exact ⟨by rw [if_neg hc], by rw [hlen]⟩
  · rw [if_neg h]
    exact ⟨by rw [if_neg h], Nat.le_of_not_lt h⟩

/-! ## C5: classification -/

/-- C5 (counterexample): a URL whose path ends in `.pdf` but whose full
string does not is classified Page, refuting the path-based reading. -/
theorem classifyUrl_path_counterexample :
    classifyUrl "https://example.com/report.pdf?v=1" = TargetKind.Page ∧
    strEndsWith (strLower (claimUrlPath "https://example.com/report.pdf?v=1")) ".pdf" = true ∧
    classifyUrl "file.pdf" = TargetKind.Document := by
  refine ⟨rfl, rfl, rfl⟩

/-- C5 (amended): classification is a pure total function of the URL
string; a URL is classified Document exactly when the whole lowercased URL
string ends in one of the fixed extensions, and Page otherwise. -/
theorem classifyUrl_by_url_suffix (url : String) :
    (classifyUrl url = TargetKind.Document ↔
      ∃ ext ∈ file_extensions, strEndsWith (strLower url) ext = true) ∧
    (classifyUrl url = TargetKind.Document ∨ classifyUrl url = TargetKind.Page) := by
  unfold classifyUrl
  by_cases h : (file_extensions.any (fun ext => strEndsWith (strLower url) ext)) = true
  · rw [if_pos h]
    refine ⟨⟨fun _ => ?_, fun _ => rfl⟩, Or.inl rfl⟩
    simpa [List.any_eq_true] using h
  · rw [Bool.not_eq_true] at h
    rw [if_neg (by simp [h])]
    refine ⟨⟨fun hc => absurd hc (by simp), fun hex => ?_⟩, Or.inr rfl⟩
    exfalso
    have : file_extensions.any (fun ext => strEndsWith (strLower url) ext) = true := by
      simpa [List.any_eq_true] using hex
    rw [h] at this
    exact Bool.false_ne_true this

/-! ## C6: anti-automation routing -/

/-- C6 (counterexample): a URL whose host is not an anti-automation domain
but which merely contains one as a substring still gets
`requiresRendering`, refuting the host-match reading. -/
theorem requiresRendering_not_host_based :
    requiresRendering "https://evil.example.com/igualdadenlaempresa.es" = true ∧
    claimUrlHost "https://evil.example.com/igualdadenlaempresa.es" = "evil.example.com" ∧
    claimHostMatches "https://evil.example.com/igualdadenlaempresa.es" = false := by
  refine ⟨rfl, rfl, rfl⟩

/-- C6 (amended): `requiresRendering` is true exactly when some configured
anti-automation domain occurs as a substring anywhere in the URL, and a
Document target with `requiresRendering` routes through the render
checker (browser session), ignoring the HTTP world. -/
theorem requiresRendering_substring_and_routing (url : String) :
    (requiresRendering url = true ↔
      ∃ d ∈ problematic_domains, strContains url d = true) ∧
    (∀ (rworld : RenderWorld) (hworld : HttpWorld),
      requiresRendering url = true →
      checkFileUrl url rworld hworld = checkFileRender url rworld) := by
  constructor
  · unfold requiresRendering
    exact List.any_eq_true
  · intro rworld hworld h
    unfold checkFileUrl
    rw [if_pos h]

/-- Witness for the routing part at a concrete problematic-domain URL. -/
theorem requiresRendering_substring_and_routing_witness :
    requiresRendering "https://www.igualdadenlaempresa.es/DIE/convocatorias/home.htm" = true ∧
    checkFileUrl "https://www.igualdadenlaempresa.es/DIE/convocatorias/home.htm"
        (Except.error NavError.timeout) ⟨Except.ok 200, Except.ok 200⟩ =
      checkFileRender "https://www.igualdadenlaempresa.es/DIE/convocatorias/home.htm"
        (Except.error NavError.timeout) := by
  constructor
  · rfl
  · exact (requiresRendering_substring_and_routing _).2 _ _ rfl

/-! ## Protocol-checker case lemmas (shared by the HEAD/GET claims) -/

/-- An exception during HEAD goes straight to the handlers: no GET. -/
theorem checkFileRequestsT_head_error (url : String) (e : ReqError)
    (g : Except ReqError Nat) :
    checkFileRequestsT url ⟨Except.error e, g⟩ = (reqErrorResult url e, false) := rfl

/-- A 200 HEAD succeeds immediately: no GET. -/
theorem checkFileRequestsT_head_200 (url : String) (g : Except ReqError Nat) :
    checkFileRequestsT url ⟨Except.ok 200, g⟩ =
      (⟨url, true, "Archivo disponible (HEAD: 200)"⟩, false) := rfl

/-- A completed non-200 HEAD falls back to GET, whose status (or
exception) decides the outcome. -/
theorem checkFileRequestsT_head_ne (url : String) (s : Nat) (hs : s ≠ 200)
    (g : Except ReqError Nat) :
    checkFileRequestsT url ⟨Except.ok s, g⟩ =
      (match g with
       | Except.error e => reqErrorResult url e
       | Except.ok s2 =>
           if s2 = 200 then ⟨url, true, "Archivo disponible (GET: " ++ toString s2 ++ ")"⟩
           else ⟨url, false, "Error HTTP " ++ toString s2⟩, true) := by
  unfold checkFileRequestsT
  dsimp only
  rw [if_neg hs]
  cases g with
  | error e => rfl
  | ok s2 => by_cases h2 : s2 = 200 <;> simp [h2]

/-! ## C2: HEAD→GET fallback -/

/-- C2 (counterexample): when the HEAD request times out, the exception
handler answers directly — no GET fallback is issued — and the outcome is
unavailable with the timeout detail, even though a GET would have
returned 200. -/
theorem head_timeout_no_get_fallback :
    (checkFileRequestsT "https://www.ine.es/daco/daco42/clasificaciones/cnae09/nace11_nace2.pdf"
        ⟨Except.error ReqError.timeout, Except.ok 200⟩).2 = false ∧
    (checkFileRequests "https://www.ine.es/daco/daco42/clasificaciones/cnae09/nace11_nace2.pdf"
        ⟨Except.error ReqError.timeout, Except.ok 200⟩).is_available = false ∧
    (checkFileRequests "https://www.ine.es/daco/daco42/clasificaciones/cnae09/nace11_nace2.pdf"
        ⟨Except.error ReqError.timeout, Except.ok 200⟩).message =
      "Timeout al acceder al archivo (>15s)" := by
  refine ⟨rfl, rfl, rfl⟩

/-- C2 (amended): the GET fallback is issued exactly when HEAD completes
with a non-200 status; a HEAD transport exception (timeout, TLS,
connection) is answered directly by its handler with no fallback; when the
fallback runs, the outcome is decided by the GET status, a 200 reading
`Archivo disponible (GET: 200)`. -/
theorem get_fallback_on_completed_non200 (url : String) (w : HttpWorld) :
    ((checkFileRequestsT url w).2 = true ↔
      ∃ s, w.head = Except.ok s ∧ s ≠ 200) ∧
    (∀ e, w.head = Except.error e →
      checkFileRequestsT url w = (reqErrorResult url e, false)) ∧
    (∀ s, w.head = Except.ok s → s ≠ 200 →
      ((checkFileRequests url w).is_available = true ↔ w.get = Except.ok 200)) ∧
    (∀ s, w.head = Except.ok s → s ≠ 200 → w.get = Except.ok 200 →
      (checkFileRequests url w).message = "Archivo disponible (GET: 200)") := by
  obtain ⟨hd, g⟩ := w
  refine ⟨?_, ?_, ?_, ?_⟩
  · cases hd with
    | error e => simp [checkFileRequestsT_head_error]
    | ok s =>
        by_cases hs : s = 200
        · subst hs
          simp [checkFileRequestsT_head_200]
        · rw [checkFileRequestsT_head_ne url s hs g]
          simp only [true_iff]
          exact ⟨s, rfl, hs⟩
  · intro e he
    cases he
    exact checkFileRequestsT_head_error url e g
  · intro s hhead hs
    cases hhead
    unfold checkFileRequests
    rw [checkFileRequestsT_head_ne url s hs g]
    cases g with
    | error e =>
        simp only []
        constructor
        · intro hav
          exfalso
          cases e <;> simp [reqErrorResult] at hav
        · intro hg
          exact absurd hg (by simp)
    | ok s2 =>
        by_cases h2 : s2 = 200
        · subst h2
          simp
        · simp [h2]
  · intro s hhead hs hget
    cases hhead
    cases hget
    unfold checkFileRequests
    rw [checkFileRequestsT_head_ne url s hs]
    rfl

/-- Witness: a 404 HEAD triggers the fallback and a 200 GET makes the
target available with the GET detail. -/
theorem get_fallback_on_completed_non200_witness :
    (checkFileRequestsT "https://x.example/a.pdf" ⟨Except.ok 404, Except.ok 200⟩).2 = true ∧
    checkFileRequestsT "https://x.example/a.pdf"
        ⟨Except.error ReqError.timeout, Except.ok 200⟩ =
      (reqErrorResult "https://x.example/a.pdf" ReqError.timeout, false) ∧
    (checkFileRequests "https://x.example/a.pdf" ⟨Except.ok 404, Except.ok 200⟩).is_available = true ∧
    (checkFileRequests "https://x.example/a.pdf" ⟨Except.ok 404, Except.ok 200⟩).message =
      "Archivo disponible (GET: 200)" := by
  refine ⟨?_, ?_, ?_, ?_⟩
  · exact (get_fallback_on_completed_non200 "https://x.example/a.pdf"
      ⟨Except.ok 404, Except.ok 200⟩).1.mpr ⟨404, rfl, by decide⟩
  · exact (get_fallback_on_completed_non200 "https://x.example/a.pdf"
      ⟨Except.error ReqError.timeout, Except.ok 200⟩).2.1 ReqError.timeout rfl
  · exact ((get_fallback_on_completed_non200 "https://x.example/a.pdf"
      ⟨Except.ok 404, Except.ok 200⟩).2.2.1 404 rfl (by decide)).mpr rfl
  · exact (get_fallback_on_completed_non200 "https://x.example/a.pdf"
      ⟨Except.ok 404, Except.ok 200⟩).2.2.2 404 rfl (by decide) rfl

/-! ## C4: success statuses -/

/-- C4 (counterexample): a 204 response — a 2xx success status — is not
treated as success: HEAD 204 falls through to GET, and GET 204 yields an
unavailable outcome recording the status. -/
theorem status_204_not_success :
    (200 ≤ 204 ∧ 204 < 300) ∧
    (checkFileRequests "https://x.example/a.pdf" ⟨Except.ok 204, Except.ok 204⟩).is_available = false ∧
    (checkFileRequests "https://x.example/a.pdf" ⟨Except.ok 204, Except.ok 204⟩).message =
      "Error HTTP 204" := by
  refine ⟨⟨by decide, by decide⟩, rfl, rfl⟩

/-- C4 (amended): a protocol-checked document is available exactly when a
check returns status 200 — HEAD directly, or GET after a completed
non-200 HEAD — and the detail records which method succeeded with its
status; 2xx statuses other than 200 are not accepted. -/
theorem available_iff_status_200 (url : String) (w : HttpWorld) :
    ((checkFileRequests url w).is_available = true ↔
      (w.head = Except.ok 200 ∨
        ∃ s, w.head = Except.ok s ∧ s ≠ 200 ∧ w.get = Except.ok 200)) ∧
    (w.head = Except.ok 200 →
      (checkFileRequests url w).message = "Archivo disponible (HEAD: 200)") ∧
    (∀ s, w.head = Except.ok s → s ≠ 200 → w.get = Except.ok 200 →
      (checkFileRequests url w).message = "Archivo disponible (GET: 200)") := by
  obtain ⟨hd, g⟩ := w
  refine ⟨?_, ?_, ?_⟩
  · unfold checkFileRequests
    cases hd with
    | error e =>
        rw [checkFileRequestsT_head_error]
        constructor
        · intro hav
          exfalso
          cases e <;> simp [reqErrorResult] at hav
        · rintro (h | ⟨s, h, _⟩) <;> exact absurd h (by simp)
    | ok s =>
        by_cases hs : s = 200
        · subst hs
          rw [checkFileRequestsT_head_200]
          simp
        · rw [checkFileRequestsT_head_ne url s hs g]
          cases g with
          | error e =>
              simp only []
              constructor
              · intro hav
                exfalso
                cases e <;> simp [reqErrorResult] at hav
              · rintro (h | ⟨s2, h, _, hg⟩)
                · exact absurd h (by simp [hs])
                · exact absurd hg (by simp)
          | ok s2 =>
              by_cases h2 : s2 = 200
              · subst h2
                constructor
                · intro _
                  exact Or.inr ⟨s, rfl, hs, rfl⟩
                · intro _
                  rfl
              · constructor
                · intro hav
                  exfalso
                  revert hav
                  simp [h2]
                · rintro (h | ⟨s3, h3, _, hg⟩)
                  · exact absurd h (by simp [hs])
                  · exfalso
                    injection hg with h4
                    exact h2 h4
  · intro hh
    cases hd with
    | error e => exact absurd hh (by simp)
    | ok s =>
        injection hh with h
        subst h
        unfold checkFileRequests
        rw [checkFileRequestsT_head_200]
  · intro s hh hs hg
    cases hh
    cases hg
    unfold checkFileRequests
    rw [checkFileRequestsT_head_ne url s hs]
    rfl

/-- Witness: HEAD 200 succeeds with the HEAD detail; HEAD 404 then GET 200
succeeds with the GET detail. -/
theorem available_iff_status_200_witness :
    (checkFileRequests "https://y.example/b.xlsx" ⟨Except.ok 200, Except.error ReqError.timeout⟩).is_available = true ∧
    (checkFileRequests "https://y.example/b.xlsx" ⟨Except.ok 200, Except.error ReqError.timeout⟩).message =
      "Archivo disponible (HEAD: 200)" ∧
    (checkFileRequests "https://y.example/b.xlsx" ⟨Except.ok 404, Except.ok 200⟩).message =
      "Archivo disponible (GET: 200)" := by
  refine ⟨?_, ?_, ?_⟩
  · exact (available_iff_status_200 "https://y.example/b.xlsx"
      ⟨Except.ok 200, Except.error ReqError.timeout⟩).1.mpr (Or.inl rfl)
  · exact (available_iff_status_200 "https://y.example/b.xlsx"
      ⟨Except.ok 200, Except.error ReqError.timeout⟩).2.1 rfl
  · exact (available_iff_status_200 "https://y.example/b.xlsx"
      ⟨Except.ok 404, Except.ok 200⟩).2.2 404 rfl (by decide) rfl

/-! ## C7: render-checker decision order -/

/-- C7: for a page whose navigation succeeds, the render checker decides
in priority order: a critical-error phrase in the first 1000 characters of
the lowercased markup is unavailable with the critical-error detail;
otherwise a non-empty title is available; otherwise markup longer than 100
characters is available without title; otherwise unavailable with the
no-content detail. -/
theorem checkWebUrl_decision_order (url title source : String) :
    (hasCriticalError source = true →
      checkWebUrl url (Except.ok ⟨title, source⟩) =
        ⟨url, false, "Página con error crítico detectado"⟩) ∧
    (hasCriticalError source = false → title ≠ "" →
      (checkWebUrl url (Except.ok ⟨title, source⟩)).is_available = true) ∧
    (hasCriticalError source = false → title = "" →
      100 < strLen (strLower source) →
      checkWebUrl url (Except.ok ⟨title, source⟩) =
        ⟨url, true, "Web disponible (sin título)"⟩) ∧
    (hasCriticalError source = false → title = "" →
      strLen (strLower source) ≤ 100 →
      checkWebUrl url (Except.ok ⟨title, source⟩) =
        ⟨url, false, "Web sin contenido"⟩) := by
  refine ⟨?_, ?_, ?_, ?_⟩
  · intro h
    unfold checkWebUrl
    dsimp only
    rw [if_pos h]
  · intro h ht
    unfold checkWebUrl
    dsimp only
    rw [if_neg (by rw [h]; exact Bool.false_ne_true), if_pos ht]
  · intro h ht hl
    subst ht
    unfold checkWebUrl
    dsimp only
    rw [if_neg (by rw [h]; exact Bool.false_ne_true),
        if_neg (by simp), if_pos hl]
  · intro h ht hl
    subst ht
    unfold checkWebUrl
    dsimp only
    rw [if_neg (by rw [h]; exact Bool.false_ne_true),
        if_neg (by simp), if_neg (Nat.not_lt.mpr hl)]

set_option maxRecDepth 20000 in
/-- Witness for each decision branch at concrete rendered pages. -/
theorem checkWebUrl_decision_order_witness :
    checkWebUrl "https://a.example" (Except.ok ⟨"Inicio", "<html>404 not found</html>"⟩) =
      ⟨"https://a.example", false, "Página con error crítico detectado"⟩ ∧
    (checkWebUrl "https://a.example" (Except.ok ⟨"Inicio", "<html>ok</html>"⟩)).is_available = true ∧
    checkWebUrl "https://a.example"
        (Except.ok ⟨"", "<html><body>xxxxxxxxxxxxxxxxxxxxxxxxxxxxxxxxxxxxxxxxxxxxxxxxxxxxxxxxxxxxxxxxxxxxxxxxxxxxxxxxxxxxxxxxxxxxxxxx</body></html>"⟩) =
      ⟨"https://a.example", true, "Web disponible (sin título)"⟩ ∧
    checkWebUrl "https://a.example" (Except.ok ⟨"", "<html></html>"⟩) =
      ⟨"https://a.example", false, "Web sin contenido"⟩ := by
  refine ⟨?_, ?_, ?_, ?_⟩
  · exact (checkWebUrl_decision_order "https://a.example" "Inicio"
      "<html>404 not found</html>").1 (by decide)
  · exact (checkWebUrl_decision_order "https://a.example" "Inicio"
      "<html>ok</html>").2.1 (by decide) (by decide)
  · exact (checkWebUrl_decision_order "https://a.example" ""
      "<html><body>xxxxxxxxxxxxxxxxxxxxxxxxxxxxxxxxxxxxxxxxxxxxxxxxxxxxxxxxxxxxxxxxxxxxxxxxxxxxxxxxxxxxxxxxxxxxxxxx</body></html>").2.2.1
      (by decide) rfl (by decide)
  · exact (checkWebUrl_decision_order "https://a.example" ""
      "<html></html>").2.2.2 (by decide) rfl (by decide)

/-! ## C8: failure-cause message classes -/

/-- The TLS handler's message classifies as a TLS failure whatever the
appended exception text is. -/
theorem causeOf_sslMessage (e : String) :
    causeOf ("Error SSL: " ++ strTake 80 e) = some FailureCause.tlsFailure := by
  have h1 : strStartsWith ("Error SSL: " ++ strTake 80 e)
      "Timeout al acceder al archivo" = false :=
    strStartsWith_append_eq_false (p := "Timeout al acceder al archivo")
      (a := "Error SSL: ") (strTake 80 e) 1 (by decide) (by decide) (by decide)
  have h2 : strStartsWith ("Error SSL: " ++ strTake 80 e) "Error SSL:" = true :=
    strStartsWith_append_eq_true (p := "Error SSL:") (a := "Error SSL: ")
      (strTake 80 e) (by decide)
  simp [causeOf, allCauses, causeMark, List.find?, h1, h2]

/-- The connection handler's message classifies as a transport failure
whatever the appended exception text is. -/
theorem causeOf_connectionMessage (e : String) :
    causeOf ("Error de conexión: " ++ strTake 80 e) =
      some FailureCause.transportFailure := by
  have h1 : strStartsWith ("Error de conexión: " ++ strTake 80 e)
      "Timeout al acceder al archivo" = false :=
    strStartsWith_append_eq_false (p := "Timeout al acceder al archivo")
      (a := "Error de conexión: ") (strTake 80 e) 1 (by decide) (by decide) (by decide)
  have h2 : strStartsWith ("Error de conexión: " ++ strTake 80 e)
      "Error SSL:" = false :=
    strStartsWith_append_eq_false (p := "Error SSL:")
      (a := "Error de conexión: ") (strTake 80 e) 7 (by decide) (by decide) (by decide)
  have h3 : strStartsWith ("Error de conexión: " ++ strTake 80 e)
      "Error de conexión:" = true :=
    strStartsWith_append_eq_true (p := "Error de conexión:")
      (a := "Error de conexión: ") (strTake 80 e) (by decide)
  simp [causeOf, allCauses, causeMark, List.find?, h1, h2, h3]

/-- The WebDriver handler's message classifies as a render fault whatever
the appended exception text is. -/
theorem causeOf_webDriverMessage (e : String) :
    causeOf ("Error de navegador: " ++ strTake 100 e) =
      some FailureCause.renderFault := by
  have h1 : strStartsWith ("Error de navegador: " ++ strTake 100 e)
      "Timeout al acceder al archivo" = false :=
    strStartsWith_append_eq_false (p := "Timeout al acceder al archivo")
      (a := "Error de navegador: ") (strTake 100 e) 1 (by decide) (by decide) (by decide)
  have h2 : strStartsWith ("Error de navegador: " ++ strTake 100 e)
      "Error SSL:" = false :=
    strStartsWith_append_eq_false (p := "Error SSL:")
      (a := "Error de navegador: ") (strTake 100 e) 7 (by decide) (by decide) (by decide)
  have h3 : strStartsWith ("Error de navegador: " ++ strTake 100 e)
      "Error de conexión:" = false :=
    strStartsWith_append_eq_false (p := "Error de conexión:")
      (a := "Error de navegador: ") (strTake 100 e) 10 (by decide) (by decide) (by decide)
  have h4 : strStartsWith ("Error de navegador: " ++ strTake 100 e)
      "Timeout al cargar página" = false :=
    strStartsWith_append_eq_false (p := "Timeout al cargar página")
      (a := "Error de navegador: ") (strTake 100 e) 1 (by decide) (by decide) (by decide)
  have h5 : strStartsWith ("Error de navegador: " ++ strTake 100 e)
      "Error de navegador:" = true :=
    strStartsWith_append_eq_true (p := "Error de navegador:")
      (a := "Error de navegador: ") (strTake 100 e) (by decide)
  simp [causeOf, allCauses, causeMark, List.find?, h1, h2, h3, h4, h5]

/-- The catch-all handler's message classifies as an unexpected fault
whatever the appended exception text is. -/
theorem causeOf_unexpectedMessage (e : String) :
    causeOf ("Error inesperado: " ++ strTake 100 e) =
      some FailureCause.unexpectedFault := by
  have h1 : strStartsWith ("Error inesperado: " ++ strTake 100 e)
      "Timeout al acceder al archivo" = false :=
    strStartsWith_append_eq_false (p := "Timeout al acceder al archivo")
      (a := "Error inesperado: ") (strTake 100 e) 1 (by decide) (by decide) (by decide)
  have h2 : strStartsWith ("Error inesperado: " ++ strTake 100 e)
      "Error SSL:" = false :=
    strStartsWith_append_eq_false (p := "Error SSL:")
      (a := "Error inesperado: ") (strTake 100 e) 7 (by decide) (by decide) (by decide)
  have h3 : strStartsWith ("Error inesperado: " ++ strTake 100 e)
      "Error de conexión:" = false :=
    strStartsWith_append_eq_false (p := "Error de conexión:")
      (a := "Error inesperado: ") (strTake 100 e) 7 (by decide) (by decide) (by decide)
  have h4 : strStartsWith ("Error inesperado: " ++ strTake 100 e)
      "Timeout al cargar página" = false :=
    strStartsWith_append_eq_false (p := "Timeout al cargar página")
      (a := "Error inesperado: ") (strTake 100 e) 1 (by decide) (by decide) (by decide)
  have h5 : strStartsWith ("Error inesperado: " ++ strTake 100 e)
      "Error de navegador:" = false :=
    strStartsWith_append_eq_false (p := "Error de navegador:")
      (a := "Error inesperado: ") (strTake 100 e) 7 (by decide) (by decide) (by decide)
  have h6 : strStartsWith ("Error inesperado: " ++ strTake 100 e)
      "Error inesperado:" = true :=
    strStartsWith_append_eq_true (p := "Error inesperado:")
      (a := "Error inesperado: ") (strTake 100 e) (by decide)
  simp [causeOf, allCauses, causeMark, List.find?, h1, h2, h3, h4, h5, h6]

/-- C8: the failure-cause classes produced by the protocol and render
exception handlers carry pairwise-distinct constant message heads, each
detail is classified by its head alone, a render navigation timeout is an
unavailable outcome, and its detail carries the configured bound value
45. -/
theorem failure_causes_distinct_and_render_timeout (url e : String) :
    ((allCauses.map causeMark).Nodup) ∧
    causeOf ((reqErrorResult url ReqError.timeout).message) =
      some FailureCause.transportTimeout ∧
    causeOf ((reqErrorResult url (ReqError.sslError e)).message) =
      some FailureCause.tlsFailure ∧
    causeOf ((reqErrorResult url (ReqError.requestError e)).message) =
      some FailureCause.transportFailure ∧
    causeOf ((checkWebUrl url (Except.error NavError.timeout)).message) =
      some FailureCause.renderTimeout ∧
    causeOf ((checkWebUrl url (Except.error (NavError.webDriverError e))).message) =
      some FailureCause.renderFault ∧
    causeOf ((checkWebUrl url (Except.error (NavError.otherError e))).message) =
      some FailureCause.unexpectedFault ∧
    (checkWebUrl url (Except.error NavError.timeout)).is_available = false ∧
    strContains ((checkWebUrl url (Except.error NavError.timeout)).message) "45" = true := by
  exact ⟨by decide, rfl, causeOf_sslMessage e, causeOf_connectionMessage e,
    rfl, causeOf_webDriverMessage e, causeOf_unexpectedMessage e, rfl, rfl⟩

/-! ## C3: failure-card cap and overflow -/

/-- The failure-entry loop emits one fact per failed target, capped at
ten. -/
theorem failureEntryFacts_length (failed : List MonitorResult) :
    (failureEntryFacts failed).length = min 10 failed.length := by
  unfold failureEntryFacts
  rw [List.length_map, List.enum_length, List.length_take]

/-- C3 (counterexample): with the twelve concrete failing targets the
failure card carries ten individual entries — more than eight — and its
overflow fact states two more, not four. -/
theorem twelve_failures_ten_entries_two_more :
    (failureEntryFacts sampleFailed12).length = 10 ∧
    8 < (failureEntryFacts sampleFailed12).length ∧
    overflowFacts sampleFailed12.length =
      [⟨"⚠️ Aviso:",
        "Hay 2 URL(s) más con problemas. Consultar logs de GitHub Actions."⟩] ∧
    strContains "Hay 2 URL(s) más con problemas. Consultar logs de GitHub Actions." "4" = false := by
  have hl : sampleFailed12.length = 12 := by decide
  refine ⟨?_, ?_, ?_, by decide⟩
  · rw [failureEntryFacts_length, hl]
    decide
  · rw [failureEntryFacts_length, hl]
    decide
  · rw [hl]
    decide

/-- C3 (amended): the failure card shows at most ten individual failure
entries (the configured cap is 10); when more targets fail, exactly one
overflow fact follows, stating how many more failures exist — with twelve
failing targets, ten entries plus an overflow fact stating 2 more. -/
theorem failureEntryFacts_cap_and_overflow (failed : List MonitorResult) :
    (failureEntryFacts failed).length = min 10 failed.length ∧
    (10 < failed.length →
      overflowFacts failed.length =
        [⟨"⚠️ Aviso:",
          "Hay " ++ toString (failed.length - 10) ++
          " URL(s) más con problemas. Consultar logs de GitHub Actions."⟩]) ∧
    (failed.length ≤ 10 → overflowFacts failed.length = []) ∧
    (∀ (all_results : List MonitorResult) (ts : String),
      buildTeamsCardFacts failed all_results ts =
        headerFacts all_results.length (all_results.length - failed.length)
            failed.length ts ++
        failureEntryFacts failed ++ overflowFacts failed.length ++
        workingFacts all_results (all_results.length - failed.length)) := by
  refine ⟨failureEntryFacts_length failed, ?_, ?_, fun _ _ => rfl⟩
  · intro h
    unfold overflowFacts
    rw [if_pos h]
  · intro h
    unfold overflowFacts
    rw [if_neg (Nat.not_lt.mpr h)]

/-- Witness: the cap and the overflow note at the twelve-failure fixture,
and the absence of the note below the cap. -/
theorem failureEntryFacts_cap_and_overflow_witness :
    (failureEntryFacts sampleFailed12).length = min 10 sampleFailed12.length ∧
    overflowFacts sampleFailed12.length =
      [⟨"⚠️ Aviso:",
        "Hay " ++ toString (sampleFailed12.length - 10) ++
        " URL(s) más con problemas. Consultar logs de GitHub Actions."⟩] ∧
    overflowFacts ([] : List MonitorResult).length = [] := by
  exact ⟨(failureEntryFacts_cap_and_overflow sampleFailed12).1,
    (failureEntryFacts_cap_and_overflow sampleFailed12).2.1 (by decide),
    (failureEntryFacts_cap_and_overflow []).2.2.1 (by decide)⟩

/-! ## Orchestration: closed form of one run -/

/-- Closed form of `runExec` over all control paths: setup failure, a
fault in the checking loop, the failure-notification path, the
success-notification path, and the silent success path. -/
theorem runExec_eq (w : OrchWorld) :
    runExec w =
      (if w.setupOk = false then
        (Except.ok 1, ⟨none, 1, 0, 0⟩)
       else if w.checkingFault = true then
        (Except.ok 1, ⟨some ⟨w.quitFails⟩, 1, 1, 0⟩)
       else if (orchOutcomes w).any (fun r => !r.is_available) = true then
        (Except.ok 1, ⟨some ⟨w.quitFails⟩, 1, 1, 1⟩)
       else if w.notify_always = true then
        (Except.ok (if w.notifyFault = true then 1 else 0),
         ⟨some ⟨w.quitFails⟩, 1, 1, 1⟩)
       else (Except.ok 0, ⟨some ⟨w.quitFails⟩, 1, 1, 0⟩)) := by
  unfold runExec runM orchTryFinally orchTryCatch runBody orchBind
    acquireDriver checkingLoop sendNotification orchPure cleanupOp
    quitDriver initOrchState
  by_cases h : (orchOutcomes w).any (fun r => !r.is_available) = true <;>
    cases hs : w.setupOk <;> cases hc : w.checkingFault <;>
    cases hn : w.notifyFault <;> cases ha : w.notify_always <;>
    cases hq : w.quitFails <;>
    simp [hs, hc, hn, ha, hq, filter_isEmpty_eq_not_any, h, orchTryCatch, orchPure]

/-! ## C1: exit status -/

/-- C1: a run always ends with an exit code, and the exit code is 1
exactly when some outcome is unavailable or an orchestration-level fault
(setup failure, or an unexpected exception outside the per-target
boundary) occurred; it is 0 otherwise. -/
theorem exit_code_iff_failure_or_fault (w : OrchWorld) :
    ((runExec w).1 = Except.ok 0 ∨ (runExec w).1 = Except.ok 1) ∧
    ((runExec w).1 = Except.ok 1 ↔
      ((orchOutcomes w).any (fun r => !r.is_available) = true ∨
        orchFault w = true)) ∧
    ((runExec w).1 = Except.ok 0 ↔
      ((orchOutcomes w).any (fun r => !r.is_available) = false ∧
        orchFault w = false)) := by
  rw [runExec_eq]
  unfold orchFault notificationHappens
  by_cases h : (orchOutcomes w).any (fun r => !r.is_available) = true <;>
    cases hs : w.setupOk <;> cases hc : w.checkingFault <;>
    cases hn : w.notifyFault <;> cases ha : w.notify_always <;>
    simp [hs, hc, hn, ha, h]

/-! ## C9: cleanup -/

/-- The per-target outcomes do not depend on the quit behaviour. -/
theorem orchOutcomes_quitFails_update (w : OrchWorld) (b : Bool) :
    orchOutcomes { w with quitFails := b } = orchOutcomes w := rfl

/-- C9: cleanup runs exactly once on every termination path, the quit call
happens exactly when a session was created (a no-op otherwise), the run
never ends in an escaped exception, and a failing quit changes nothing
observable about the run's result. -/
theorem cleanup_exactly_once (w : OrchWorld) :
    (runExec w).2.cleanupCalls = 1 ∧
    (runExec w).2.quitAttempts = (if w.setupOk = true then 1 else 0) ∧
    (∃ n, (runExec w).1 = Except.ok n) ∧
    (runExec { w with quitFails := true }).1 =
      (runExec { w with quitFails := false }).1 := by
  refine ⟨?_, ?_, ?_, ?_⟩
  · rw [runExec_eq]
    by_cases h : (orchOutcomes w).any (fun r => !r.is_available) = true <;>
      cases hs : w.setupOk <;> cases hc : w.checkingFault <;>
      cases ha : w.notify_always <;>
      simp [hs, hc, ha, h]
  · rw [runExec_eq]
    by_cases h : (orchOutcomes w).any (fun r => !r.is_available) = true <;>
      cases hs : w.setupOk <;> cases hc : w.checkingFault <;>
      cases ha : w.notify_always <;>
      simp [hs, hc, ha, h]
  · rw [runExec_eq]
    by_cases h : (orchOutcomes w).any (fun r => !r.is_available) = true <;>
      cases hs : w.setupOk <;> cases hc : w.checkingFault <;>
      cases hn : w.notifyFault <;> cases ha : w.notify_always <;>
      simp [hs, hc, hn, ha, h]
  · rw [runExec_eq, runExec_eq]
    simp only [orchOutcomes_quitFails_update]
    dsimp only
    by_cases h : (orchOutcomes w).any (fun r => !r.is_available) = true <;>
      cases hs : w.setupOk <;> cases hc : w.checkingFault <;>
      cases hn : w.notifyFault <;> cases ha : w.notify_always <;>
      simp [hs, hc, hn, ha, h]

end WebMonitor
